import Mathlib

/-!
Verification of the always-on-top window geometry logic of
`jitsi-meet-electron-utils` (`src/alwaysontop/main.js`).

The module keeps process-wide mutable state (`position`, `size`), clamps a
remembered window rectangle into a screen's work area, computes an initial
placement, enforces a 16:9 aspect ratio during manual resizes, and handles
inbound IPC messages. We embed the geometry arithmetic over `ℤ` (screen
coordinates and window sizes are integral), the aspect-ratio arithmetic over
`ℚ` with JavaScript's `Math.round` semantics, and the IPC handler as a pure
state-transition function, with JavaScript `undefined` fields modelled by
`Option`.
-/

namespace AlwaysOnTop

/-- A rectangle `{x, y, width, height}`; `x`/`y` is the top-left corner. -/
structure Rect where
  x : ℤ
  y : ℤ
  width : ℤ
  height : ℤ
  deriving Repr, DecidableEq

/-- A point `{x, y}`. -/
structure Point where
  x : ℤ
  y : ℤ
  deriving Repr, DecidableEq

/-- A size `{width, height}`. As in the source, both fields are always
numeric (`size` is initialised from the `SIZE` constant and only ever
assigned numeric values). -/
structure Size where
  width : ℤ
  height : ℤ
  deriving Repr, DecidableEq

/-- The `position` module variable: a JavaScript object whose `x`/`y`
fields may be absent (`undefined`) or numeric.  The initial value `{}` has
both fields absent. -/
structure JsPos where
  x : Option ℤ
  y : Option ℤ
  deriving Repr, DecidableEq

/-- `positionWindowWithinScreenBoundaries(windowRectangle, screenRectangle)`
from `src/alwaysontop/main.js`: clamps the window's top-left corner so the
window lies within the screen, axis by axis, via
`Math.min(Math.max(windowRectangle.x, minX), maxX)` (and likewise for `y`). -/
def positionWindowWithinScreenBoundaries
    (windowRectangle screenRectangle : Rect) : Point :=
  let minY := screenRectangle.y
  let minX := screenRectangle.x
  let maxY := screenRectangle.y + screenRectangle.height - windowRectangle.height
  let maxX := screenRectangle.x + screenRectangle.width - windowRectangle.width
  { x := min (max windowRectangle.x minX) maxX
    y := min (max windowRectangle.y minY) maxY }

/-- The `ASPECT_RATIO` constant `16 / 9` from `src/alwaysontop/main.js`. -/
def ASPECT_RATIO : ℚ := 16 / 9

/-- JavaScript's `Math.round`: round half toward positive infinity,
`⌊q + 1/2⌋`. -/
def jsRound (q : ℚ) : ℤ := ⌊q + 1 / 2⌋

/-- One step of the non-Darwin `resize` handler in
`setAspectRatioToResizeableWindow`: given `oldSize` (the size captured by the
`will-resize` hook) and the size `(width, height)` the toolkit applied,
return the corrected size.  The axis that changed at least as much as the
other keeps its value and the other axis is recomputed from the ratio. -/
def resizeCorrect (aspectRatio : ℚ) (oldSize : ℤ × ℤ) (width height : ℤ) :
    ℤ × ℤ :=
  if |oldSize.1 - width| ≥ |oldSize.2 - height| then
    (width, jsRound ((width : ℚ) / aspectRatio))
  else
    (jsRound ((height : ℚ) * aspectRatio), height)

/-- The `will-resize` hook's veto condition in
`setAspectRatioToResizeableWindow`: the resize step is prevented exactly when
the mouse position is at or past the 16-pixel margin of the new bounds'
bottom-right corner. -/
def willResizeVetoes (newBounds : Rect) (mousePos : Point) : Bool :=
  decide (mousePos.x ≥ newBounds.x + newBounds.width - 16 ∧
          mousePos.y ≥ newBounds.y + newBounds.height - 16)

/-- The payload `data` of an inbound `jitsi-always-on-top` IPC message.
`x` and `y` may be absent (`undefined`), as for a `resetSize` message or a
malformed `position` message. -/
structure MessageData where
  name : String
  x : Option ℤ
  y : Option ℤ
  deriving Repr, DecidableEq

/-- An inbound IPC message `{type, data}`. -/
structure Message where
  type : String
  data : MessageData
  deriving Repr, DecidableEq

/-- The process-wide mutable state of the module: the `position` and `size`
variables. -/
structure AotState where
  position : JsPos
  size : Size
  deriving Repr, DecidableEq

/-- The initial state: `position = {}` and `size = Object.assign({}, SIZE)`
for the configured default size. -/
def initialState (defaultSize : Size) : AotState :=
  { position := { x := none, y := none }, size := defaultSize }

/-- The `ipcMain.on('jitsi-always-on-top', ...)` listener from
`setupAlwaysOnTopMain`, as a pure state transition.  On
`{type: 'event', data: {name: 'position', x, y}}` it stores `{x, y}` (the
fields as given, absent ones included); on
`{type: 'event', data: {name: 'resetSize'}}` it resets `size` to the
configured default; anything else changes nothing. -/
def handleMessage (defaultSize : Size) (st : AotState) (m : Message) :
    AotState :=
  let st1 :=
    if m.type = "event" ∧ m.data.name = "position" then
      { st with position := { x := m.data.x, y := m.data.y } }
    else st
  if m.type = "event" ∧ m.data.name = "resetSize" then
    { st1 with size := defaultSize }
  else st1

/-- Folding the IPC listener over a sequence of inbound messages. -/
def handleMessages (defaultSize : Size) (st : AotState) (ms : List Message) :
    AotState :=
  ms.foldl (handleMessage defaultSize) st

/-- The read-only environment collaborators queried by `getPosition`:
the platform identity (`os.platform()`), the work area of the display
nearest the current cursor point, and `Screen.getDisplayMatching` composed
with `.workArea` (as an opaque function of the queried rectangle, `none`
when no display matches). -/
structure Env where
  platform : String
  cursorWorkArea : Rect
  displayMatchingWorkArea : Rect → Option Rect

/-- `getPosition()` from `src/alwaysontop/main.js`.  If `position` has both
coordinates numeric: on `win32`, clamp the rectangle `position + size` into
the matching display's work area (falling through to the stored position when
no display matches); on other platforms return the stored position unchanged.
Otherwise place the window's top-right corner at the top-right corner of the
work area of the display nearest the cursor. -/
def getPosition (env : Env) (position : JsPos) (size : Size) : Point :=
  match position.x, position.y with
  | some px, some py =>
    let stored : Point := { x := px, y := py }
    if env.platform = "win32" then
      let windowRectangle : Rect :=
        { x := px, y := py, width := size.width, height := size.height }
      match env.displayMatchingWorkArea windowRectangle with
      | some workArea =>
        positionWindowWithinScreenBoundaries windowRectangle workArea
      | none => stored
    else stored
  | _, _ =>
    { x := env.cursorWorkArea.x + env.cursorWorkArea.width - size.width
      y := env.cursorWorkArea.y }

/-- `getSize()` from `src/alwaysontop/main.js`: returns `size` (both fields
are always numeric in this embedding, so the defensive fallback to `SIZE`
never fires). -/
def getSize (st : AotState) : Size := st.size

/-- The stored position holds both coordinates as numbers. -/
def fullyPopulated (p : JsPos) : Prop := p.x.isSome ∧ p.y.isSome

/-- The stored position holds neither coordinate. -/
def fullyEmpty (p : JsPos) : Prop := p.x = none ∧ p.y = none

instance (p : JsPos) : Decidable (fullyPopulated p) := by
  unfold fullyPopulated; infer_instance

instance (p : JsPos) : Decidable (fullyEmpty p) := by
  unfold fullyEmpty; infer_instance

/-- A message sequence is well-formed when every `position` event carries
both numeric coordinates, matching the declared inbound message shape. -/
def WellFormed (ms : List Message) : Prop :=
  ∀ m ∈ ms, m.type = "event" → m.data.name = "position" →
    m.data.x.isSome ∧ m.data.y.isSome

/-- The stored position after one IPC message: replaced by the message's
`x`/`y` fields on a `position` event, untouched otherwise. -/
theorem handleMessage_position (defaultSize : Size) (st : AotState)
    (m : Message) :
    (handleMessage defaultSize st m).position =
      if m.type = "event" ∧ m.data.name = "position" then
        { x := m.data.x, y := m.data.y }
      else st.position := by
  unfold handleMessage
  split_ifs <;> rfl

/-- Claim C1, counterexample: with a 100×100 window at the origin and a
50×50 screen at the origin, the clamp returns `(-50, -50)`, not the screen's
origin `(0, 0)`: the oversized window is anchored to the max bound, not the
min bound. -/
theorem c1_counterexample :
    positionWindowWithinScreenBoundaries
        { x := 0, y := 0, width := 100, height := 100 }
        { x := 0, y := 0, width := 50, height := 50 }
      = { x := -50, y := -50 } ∧
    (positionWindowWithinScreenBoundaries
        { x := 0, y := 0, width := 100, height := 100 }
        { x := 0, y := 0, width := 50, height := 50 }).x ≠ 0 := by
  decide

/-- Claim C1, amended: when the window extent is strictly larger than the
screen extent on an axis (so max < min on that axis),
`positionWindowWithinScreenBoundaries` returns on that axis the max bound
`screenOrigin + screenExtent − windowExtent` (anchoring the window's
bottom-right edge to the screen's bottom-right edge), not the screen's
origin. -/
theorem c1_amended (w s : Rect) :
    (s.width < w.width →
      (positionWindowWithinScreenBoundaries w s).x =
        s.x + s.width - w.width) ∧
    (s.height < w.height →
      (positionWindowWithinScreenBoundaries w s).y =
        s.y + s.height - w.height) := by
  unfold positionWindowWithinScreenBoundaries
  constructor <;> intro h <;> simp <;> omega

/-- Witness for the amended C1 at a concrete oversized window. -/
theorem c1_amended_witness :
    (50 : ℤ) < 100 ∧
    (positionWindowWithinScreenBoundaries
        { x := 0, y := 0, width := 100, height := 100 }
        { x := 0, y := 0, width := 50, height := 50 }).x = 0 + 50 - 100 :=
  ⟨by decide,
    (c1_amended { x := 0, y := 0, width := 100, height := 100 }
      { x := 0, y := 0, width := 50, height := 50 }).1 (by decide)⟩

/-- Claim C4: when the window is no larger than the screen on either axis,
the clamped position together with the window extents lies fully inside the
screen rectangle on both axes. -/
theorem c4_clamp_containment (w s : Rect)
    (hw : w.width ≤ s.width) (hh : w.height ≤ s.height) :
    s.x ≤ (positionWindowWithinScreenBoundaries w s).x ∧
    (positionWindowWithinScreenBoundaries w s).x + w.width ≤
      s.x + s.width ∧
    s.y ≤ (positionWindowWithinScreenBoundaries w s).y ∧
    (positionWindowWithinScreenBoundaries w s).y + w.height ≤
      s.y + s.height := by
  unfold positionWindowWithinScreenBoundaries
  simp
  omega

/-- Witness for C4 at a concrete window and screen. -/
theorem c4_clamp_containment_witness :
    (300 : ℤ) ≤ 1920 ∧ (200 : ℤ) ≤ 1080 ∧
    ((0 : ℤ) ≤ (positionWindowWithinScreenBoundaries
        { x := -40, y := 2000, width := 300, height := 200 }
        { x := 0, y := 0, width := 1920, height := 1080 }).x ∧
      (positionWindowWithinScreenBoundaries
        { x := -40, y := 2000, width := 300, height := 200 }
        { x := 0, y := 0, width := 1920, height := 1080 }).x + 300 ≤
        0 + 1920 ∧
      (0 : ℤ) ≤ (positionWindowWithinScreenBoundaries
        { x := -40, y := 2000, width := 300, height := 200 }
        { x := 0, y := 0, width := 1920, height := 1080 }).y ∧
      (positionWindowWithinScreenBoundaries
        { x := -40, y := 2000, width := 300, height := 200 }
        { x := 0, y := 0, width := 1920, height := 1080 }).y + 200 ≤
        0 + 1080) :=
  ⟨by decide, by decide,
    c4_clamp_containment
      { x := -40, y := 2000, width := 300, height := 200 }
      { x := 0, y := 0, width := 1920, height := 1080 }
      (by decide) (by decide)⟩

/-- Claim C8: when the window rectangle already lies fully within the screen
rectangle on both axes, the clamp returns the window's position unchanged. -/
theorem c8_clamp_identity (w s : Rect)
    (h1 : s.x ≤ w.x) (h2 : w.x + w.width ≤ s.x + s.width)
    (h3 : s.y ≤ w.y) (h4 : w.y + w.height ≤ s.y + s.height) :
    positionWindowWithinScreenBoundaries w s = { x := w.x, y := w.y } := by
  unfold positionWindowWithinScreenBoundaries
  simp only [Point.mk.injEq]
  omega

/-- Witness for C8 at a concrete already-fitting window. -/
theorem c8_clamp_identity_witness :
    (0 : ℤ) ≤ 10 ∧ (10 : ℤ) + 300 ≤ 0 + 1920 ∧
    (0 : ℤ) ≤ 20 ∧ (20 : ℤ) + 200 ≤ 0 + 1080 ∧
    positionWindowWithinScreenBoundaries
        { x := 10, y := 20, width := 300, height := 200 }
        { x := 0, y := 0, width := 1920, height := 1080 }
      = { x := 10, y := 20 } :=
  ⟨by decide, by decide, by decide, by decide,
    c8_clamp_identity
      { x := 10, y := 20, width := 300, height := 200 }
      { x := 0, y := 0, width := 1920, height := 1080 }
      (by decide) (by decide) (by decide) (by decide)⟩

/-- One full firing of the non-Darwin `resize` handler as it affects
observable state: the corrected size is force-set on the window
(`win.setSize`) and persisted into the stored `size`.  Returns the window
size after the handler together with the updated module state. -/
def resizeEvent (aspectRatio : ℚ) (oldSize applied : ℤ × ℤ)
    (st : AotState) : (ℤ × ℤ) × AotState :=
  let corrected := resizeCorrect aspectRatio oldSize applied.1 applied.2
  (corrected,
    { st with size := { width := corrected.1, height := corrected.2 } })

/-- Claim C3: on the manual-ratio path, when the width change is strictly
larger the corrected size is `(w, round(w / (16/9)))`; when the height
change is strictly larger it is `(round(h * (16/9)), h)`; in both cases the
corrected size is what is set on the window and persisted into the stored
size. -/
theorem c3_aspect_enforcement (oldSize : ℤ × ℤ) (w h : ℤ) (st : AotState) :
    (|oldSize.1 - w| > |oldSize.2 - h| →
      resizeEvent ASPECT_RATIO oldSize (w, h) st =
        ((w, jsRound ((w : ℚ) / (16 / 9))),
          { st with size := { width := w
                              height := jsRound ((w : ℚ) / (16 / 9)) } })) ∧
    (|oldSize.2 - h| > |oldSize.1 - w| →
      resizeEvent ASPECT_RATIO oldSize (w, h) st =
        ((jsRound ((h : ℚ) * (16 / 9)), h),
          { st with size := { width := jsRound ((h : ℚ) * (16 / 9))
                              height := h } })) := by
  unfold resizeEvent resizeCorrect ASPECT_RATIO
  constructor <;> intro hcmp
  · rw [if_pos (le_of_lt hcmp)]
  · rw [if_neg (not_le.mpr hcmp)]

/-- Witness for C3 at a concrete width-dominant resize step. -/
theorem c3_aspect_enforcement_witness :
    |(160 : ℤ) - 320| > |(90 : ℤ) - 90| ∧
    resizeEvent ASPECT_RATIO (160, 90) (320, 90)
        (initialState { width := 160, height := 90 }) =
      ((320, jsRound ((320 : ℚ) / (16 / 9))),
        { initialState { width := 160, height := 90 } with
          size := { width := 320
                    height := jsRound ((320 : ℚ) / (16 / 9)) } }) :=
  ⟨by decide,
    (c3_aspect_enforcement (160, 90) 320 90
      (initialState { width := 160, height := 90 })).1 (by decide)⟩

/-- Claim C10: on the manual-ratio path, whenever the height change is not
strictly larger than the width change (ties included, and in particular a
step with no change on either axis), the width branch is taken: width is
kept and height is recomputed as `round(width / (16/9))`. -/
theorem c10_tie_takes_width_branch (oldSize : ℤ × ℤ) (w h : ℤ)
    (hcmp : |oldSize.2 - h| ≤ |oldSize.1 - w|) :
    resizeCorrect ASPECT_RATIO oldSize w h =
      (w, jsRound ((w : ℚ) / (16 / 9))) := by
  unfold resizeCorrect ASPECT_RATIO
  rw [if_pos hcmp]

/-- Witness for C10 at a no-change resize step. -/
theorem c10_tie_takes_width_branch_witness :
    |(90 : ℤ) - 90| ≤ |(160 : ℤ) - 160| ∧
    resizeCorrect ASPECT_RATIO (160, 90) 160 90 =
      (160, jsRound ((160 : ℚ) / (16 / 9))) :=
  ⟨by decide, c10_tie_takes_width_branch (160, 90) 160 90 (by decide)⟩

/-- Claim C5: the pre-resize hook vetoes the step exactly when the pointer
is at or past the 16-pixel margin of the new bounds' bottom-right corner;
in particular, new bounds `(0, 0, 200, 200)` with the pointer at
`(190, 190)` is vetoed. -/
theorem c5_corner_drag_veto :
    (∀ (newBounds : Rect) (mousePos : Point),
      willResizeVetoes newBounds mousePos = true ↔
        (mousePos.x ≥ newBounds.x + newBounds.width - 16 ∧
         mousePos.y ≥ newBounds.y + newBounds.height - 16)) ∧
    willResizeVetoes { x := 0, y := 0, width := 200, height := 200 }
        { x := 190, y := 190 } = true := by
  refine ⟨fun newBounds mousePos => ?_, by decide⟩
  unfold willResizeVetoes
  exact decide_eq_true_iff

/-- A concrete non-win32 environment used to instantiate environment-
parametric theorems: the cursor sits on a display with work area
`(0, 0, 1920, 1080)`. -/
def linuxEnv : Env :=
  { platform := "linux"
    cursorWorkArea := { x := 0, y := 0, width := 1920, height := 1080 }
    displayMatchingWorkArea := fun _ => none }

/-- Claim C2, counterexample: a single `position` event that carries `x`
but no `y` leaves the stored position with exactly one numeric coordinate —
neither fully populated nor fully empty. -/
theorem c2_counterexample :
    (handleMessages { width := 320, height := 180 }
        (initialState { width := 320, height := 180 })
        [{ type := "event"
           data := { name := "position", x := some 5, y := none } }]).position
      = { x := some 5, y := none } ∧
    ¬ (fullyPopulated
        (handleMessages { width := 320, height := 180 }
          (initialState { width := 320, height := 180 })
          [{ type := "event"
             data := { name := "position", x := some 5, y := none } }]).position ∨
       fullyEmpty
        (handleMessages { width := 320, height := 180 }
          (initialState { width := 320, height := 180 })
          [{ type := "event"
             data := { name := "position", x := some 5, y := none } }]).position) := by
  decide

/-- Claim C2, amended: after any sequence of inbound messages in which
every `position` event carries both numeric coordinates, the stored
position is either fully populated or fully empty, provided it was so
initially (as it is in the initial state). -/
theorem c2_amended (defaultSize : Size) (st : AotState) (ms : List Message)
    (hst : fullyPopulated st.position ∨ fullyEmpty st.position)
    (hms : WellFormed ms) :
    fullyPopulated (handleMessages defaultSize st ms).position ∨
    fullyEmpty (handleMessages defaultSize st ms).position := by
  induction ms generalizing st with
  | nil => exact hst
  | cons m rest ih =>
    have hstep : fullyPopulated (handleMessage defaultSize st m).position ∨
        fullyEmpty (handleMessage defaultSize st m).position := by
      rw [handleMessage_position]
      by_cases hpos : m.type = "event" ∧ m.data.name = "position"
      · have hxy := hms m (List.mem_cons_self m rest) hpos.1 hpos.2
        rw [if_pos hpos]
        exact Or.inl hxy
      · rw [if_neg hpos]
        exact hst
    exact ih _ hstep (fun m' hm' => hms m' (List.mem_cons_of_mem m hm'))

/-- Witness for the amended C2 at a concrete well-formed sequence. -/
theorem c2_amended_witness :
    (fullyPopulated (initialState { width := 320, height := 180 }).position ∨
      fullyEmpty (initialState { width := 320, height := 180 }).position) ∧
    WellFormed
      [{ type := "event"
         data := { name := "position", x := some 50, y := some 60 } },
       { type := "event"
         data := { name := "resetSize", x := none, y := none } }] ∧
    (fullyPopulated
        (handleMessages { width := 320, height := 180 }
          (initialState { width := 320, height := 180 })
          [{ type := "event"
             data := { name := "position", x := some 50, y := some 60 } },
           { type := "event"
             data := { name := "resetSize", x := none, y := none } }]).position ∨
      fullyEmpty
        (handleMessages { width := 320, height := 180 }
          (initialState { width := 320, height := 180 })
          [{ type := "event"
             data := { name := "position", x := some 50, y := some 60 } },
           { type := "event"
             data := { name := "resetSize", x := none, y := none } }]).position) := by
  refine ⟨Or.inr (by decide), ?_, ?_⟩
  · intro m hm h1 h2
    simp only [List.mem_cons, List.not_mem_nil, or_false] at hm
    rcases hm with hm | hm <;> subst hm
    · exact ⟨rfl, rfl⟩
    · simp at h2
  · refine c2_amended { width := 320, height := 180 }
      (initialState { width := 320, height := 180 }) _
      (Or.inr (by decide)) ?_
    intro m hm h1 h2
    simp only [List.mem_cons, List.not_mem_nil, or_false] at hm
    rcases hm with hm | hm <;> subst hm
    · exact ⟨rfl, rfl⟩
    · simp at h2

/-- Claim C6: with an empty stored position, `getPosition` places the
window's top-right corner at the top-right corner of the cursor display's
work area, for every environment and stored size; in particular with work
area `(0, 0, 1920, 1080)` and size `320×180` it returns `(1600, 0)`. -/
theorem c6_default_placement :
    (∀ (env : Env) (size : Size),
      getPosition env { x := none, y := none } size =
        { x := env.cursorWorkArea.x + env.cursorWorkArea.width - size.width
          y := env.cursorWorkArea.y }) ∧
    getPosition linuxEnv { x := none, y := none }
        { width := 320, height := 180 } = { x := 1600, y := 0 } :=
  ⟨fun _ _ => rfl, rfl⟩

/-- Claim C7: on any platform other than win32, handling a `position`
message with numeric coordinates and then computing the placement returns
exactly those coordinates, unclamped. -/
theorem c7_position_roundtrip (defaultSize : Size) (st : AotState)
    (a b : ℤ) (env : Env) (hplat : env.platform ≠ "win32") :
    getPosition env
        (handleMessage defaultSize st
          { type := "event"
            data := { name := "position", x := some a, y := some b } }).position
        (handleMessage defaultSize st
          { type := "event"
            data := { name := "position", x := some a, y := some b } }).size
      = { x := a, y := b } := by
  rw [handleMessage_position, if_pos ⟨rfl, rfl⟩]
  unfold getPosition
  simp [hplat]

/-- Witness for C7 at concrete coordinates `(50, 60)` on Linux. -/
theorem c7_position_roundtrip_witness :
    linuxEnv.platform ≠ "win32" ∧
    getPosition linuxEnv
        (handleMessage { width := 320, height := 180 }
          (initialState { width := 320, height := 180 })
          { type := "event"
            data := { name := "position", x := some 50, y := some 60 } }).position
        (handleMessage { width := 320, height := 180 }
          (initialState { width := 320, height := 180 })
          { type := "event"
            data := { name := "position", x := some 50, y := some 60 } }).size
      = { x := 50, y := 60 } :=
  ⟨by decide,
    c7_position_roundtrip { width := 320, height := 180 }
      (initialState { width := 320, height := 180 }) 50 60 linuxEnv
      (by decide)⟩

/-- Claim C9: any message whose type is not `event`, or whose `data.name`
is neither `position` nor `resetSize`, leaves the state exactly unchanged. -/
theorem c9_unknown_message_noop (defaultSize : Size) (st : AotState)
    (m : Message)
    (h : m.type ≠ "event" ∨
         (m.data.name ≠ "position" ∧ m.data.name ≠ "resetSize")) :
    handleMessage defaultSize st m = st := by
  unfold handleMessage
  rcases h with h | ⟨h1, h2⟩
  · rw [if_neg (fun hc => h hc.1), if_neg (fun hc => h hc.1)]
  · rw [if_neg (fun hc => h2 hc.2), if_neg (fun hc => h1 hc.2)]

/-- Witness for C9 at a concrete unknown message name. -/
theorem c9_unknown_message_noop_witness :
    (({ type := "event"
        data := { name := "focus", x := none, y := none } } : Message).type
        ≠ "event" ∨
      (({ type := "event"
          data := { name := "focus", x := none, y := none } } : Message).data.name
          ≠ "position" ∧
        ({ type := "event"
           data := { name := "focus", x := none, y := none } } : Message).data.name
          ≠ "resetSize")) ∧
    handleMessage { width := 320, height := 180 }
        (initialState { width := 320, height := 180 })
        { type := "event", data := { name := "focus", x := none, y := none } }
      = initialState { width := 320, height := 180 } :=
  ⟨Or.inr ⟨by decide, by decide⟩,
    c9_unknown_message_noop { width := 320, height := 180 }
      (initialState { width := 320, height := 180 })
      { type := "event", data := { name := "focus", x := none, y := none } }
      (Or.inr ⟨by decide, by decide⟩)⟩

end AlwaysOnTop
